import Mathlib

/-!
Verification development for the VerifAI mobile client (screens, constants and
the HTTP call wrapper) and for the verdict-synthesis contract of its backend.
The client code is embedded shallowly: each TypeScript function of the
repository becomes a pure Lean function over explicit inputs (the network
outcome of an axios call is passed in as a value of an error/success type).
Rational numbers stand for the JavaScript numeric scores, which the code only
ever compares against decimal constants.
-/

namespace VerifAI

/-! ## Constants (src/mobile/src/config/constants.ts) -/

/-- Timeout constant API_TIMEOUT from constants.ts, in milliseconds. -/
def API_TIMEOUT : Nat := 30000

/-- Polling interval constant POLLING_INTERVAL from constants.ts. -/
def POLLING_INTERVAL : Nat := 2000

/-- Length limit constant MAX_CLAIM_LENGTH from constants.ts. -/
def MAX_CLAIM_LENGTH : Nat := 2000

/-- Shape of the CONFIDENCE_THRESHOLDS object from constants.ts. -/
structure ConfidenceThresholds where
  HIGH : ℚ
  MEDIUM : ℚ
  LOW : ℚ
  deriving DecidableEq, Repr

/-- Constant CONFIDENCE_THRESHOLDS from constants.ts: HIGH 0.8, MEDIUM 0.5, LOW 0.3. -/
def CONFIDENCE_THRESHOLDS : ConfidenceThresholds :=
  { HIGH := 8/10, MEDIUM := 5/10, LOW := 3/10 }

/-! ## Data model (src/unnamed/part_000, the api service interfaces) -/

/-- Interface Evidence of the api service. -/
structure Evidence where
  source : String
  title : String
  snippet : String
  url : String
  relevance_score : ℚ
  deriving DecidableEq, Repr

/-- Interface Source of the api service. -/
structure Source where
  url : String
  title : String
  credibility : ℚ
  deriving DecidableEq, Repr

/-- Interface MediaAnalysis of the api service. -/
structure MediaAnalysis where
  is_manipulated : Bool
  confidence : ℚ
  findings : List String
  deriving DecidableEq, Repr

/-- The five verdict strings of the VerificationResult interface. -/
inductive Verdict where
  | TRUE
  | FALSE
  | MISLEADING
  | UNVERIFIED
  | NEEDS_CONTEXT
  deriving DecidableEq, Repr

/-- Interface VerificationResult of the api service: the complete shape the
client expects from a successful POST to the verify endpoint. -/
structure VerificationResult where
  id : String
  claim : String
  verdict : Verdict
  confidence : ℚ
  evidence : List Evidence
  reasoning : String
  sources : List Source
  media_analysis : Option MediaAnalysis
  created_at : String
  deriving DecidableEq, Repr

/-- Interface VerifyRequest of the api service: the body of a POST to the
verify endpoint. -/
structure VerifyRequest where
  claim : String
  language : Option String
  media_url : Option String
  deriving DecidableEq, Repr

/-! ## Axios failure shapes and the APIService error handlers -/

/-- Shape of an axios failure as the APIService catch blocks discriminate it:
a response branch means the server answered with a non-2xx status, carrying
an optional detail string in the body; a request branch means the request was
sent but no response arrived (network-level failure); a setupFault branch
means the error was raised before any request was sent. -/
inductive AxiosFailure where
  | response (detail : Option String)
  | request
  | setupFault
  deriving DecidableEq, Repr

/-- Semantics of the JavaScript expression x or-else fallback where x is a
possibly undefined string: undefined and the empty string are falsy, any
other string is returned as is. -/
def jsOrElse (x : Option String) (fallback : String) : String :=
  match x with
  | none => fallback
  | some s => if s = "" then fallback else s

/-- Semantics of the JavaScript string trim call: drop whitespace characters
from both ends. -/
def jsTrim (s : String) : String :=
  String.mk (((s.toList.dropWhile Char.isWhitespace).reverse.dropWhile
    Char.isWhitespace).reverse)

/-- Error message thrown by APIService.verify for a failed POST to the verify
endpoint, from the catch block at part_000 lines 58 to 66: a server response
yields its detail field with fallback, a sent-but-unanswered request yields
the no-connection message, anything else a generic message. -/
def verifyErrorMessage : AxiosFailure → String
  | AxiosFailure.response d => jsOrElse d "Verification failed"
  | AxiosFailure.request => "Network error - please check your connection"
  | AxiosFailure.setupFault => "Failed to verify claim"

/-- The optionally-chained detail read error.response?.data?.detail used by
the two claim lookup handlers: only a response failure can carry a detail. -/
def optionalDetail : AxiosFailure → Option String
  | AxiosFailure.response d => d
  | AxiosFailure.request => none
  | AxiosFailure.setupFault => none

/-- Error message thrown by APIService.getClaimStatus, from the catch block at
part_000 lines 73 to 75. -/
def getClaimStatusErrorMessage (e : AxiosFailure) : String :=
  jsOrElse (optionalDetail e) "Failed to get claim status"

/-- Error message thrown by APIService.getClaim, from the catch block at
part_000 lines 82 to 84. -/
def getClaimErrorMessage (e : AxiosFailure) : String :=
  jsOrElse (optionalDetail e) "Failed to get claim"

/-- Error message thrown by APIService.healthCheck, from the catch block at
part_000 lines 91 to 93: one constant message for every failure. -/
def healthCheckErrorMessage (_ : AxiosFailure) : String :=
  "Backend is not responding"

/-- Config object passed to axios.post by APIService.verify at part_000 lines
51 to 56: a 30000 millisecond timeout and a JSON content type header. -/
structure AxiosRequestConfig where
  timeout : Option Nat
  contentTypeJson : Bool
  deriving DecidableEq, Repr

/-- The literal config of the axios.post call in APIService.verify. -/
def verifyAxiosConfig : AxiosRequestConfig :=
  { timeout := some 30000, contentTypeJson := true }

/-! ## InputScreen (src/unnamed/part_002) -/

/-- The maxLength bound set on the claim TextInput of the InputScreen. -/
def inputScreenMaxLength : Nat := 2000

/-- State update for the claim TextInput: React Native enforces the maxLength
bound on the component, so a change event installs the typed text truncated to
inputScreenMaxLength characters. -/
def textInputChange (typed : String) : String :=
  String.mk (typed.toList.take inputScreenMaxLength)

/-- The request handleVerify sends, from part_002 lines 20 to 33: none when
the trimmed claim is empty (the guard alerts and returns), otherwise the
trimmed claim with language en-US and no media url. -/
def handleVerifyRequest (claimText : String) : Option VerifyRequest :=
  if jsTrim claimText = "" then none
  else some { claim := jsTrim claimText, language := some "en-US", media_url := none }

/-- Outcome of the awaited verify call inside handleVerify. -/
inductive VerifyOutcome where
  | success (result : VerificationResult)
  | failure (e : AxiosFailure)
  deriving DecidableEq, Repr

/-- User-visible action handleVerify ends in. -/
inductive SubmitAction where
  | alertError (title message : String)
  | navigateToResult (result : VerificationResult)
  deriving DecidableEq, Repr

/-- Embedding of handleVerify from part_002 lines 20 to 40: guard on the
trimmed claim, then either navigate to the Result screen with the full
response value or alert with the caught error message. -/
def handleVerify (claimText : String) (outcome : VerifyOutcome) : SubmitAction :=
  match handleVerifyRequest claimText with
  | none => SubmitAction.alertError "Error" "Please enter a claim"
  | some _ =>
    match outcome with
    | VerifyOutcome.success r => SubmitAction.navigateToResult r
    | VerifyOutcome.failure e =>
      SubmitAction.alertError "Error"
        (jsOrElse (some (verifyErrorMessage e)) "Verification failed")

/-- The HTTP calls the client can make, one constructor per APIService method. -/
inductive ApiCall where
  | postVerify (req : VerifyRequest)
  | statusPoll (claimId : String)
  | claimFetch (claimId : String)
  | healthPing
  deriving DecidableEq, Repr

/-- The complete list of HTTP calls issued by one run of handleVerify: nothing
when the guard fires, otherwise exactly one POST to the verify endpoint; the
submit flow never touches the status or claim lookup endpoints. -/
def handleVerifyCalls (claimText : String) : List ApiCall :=
  match handleVerifyRequest claimText with
  | none => []
  | some rq => [ApiCall.postVerify rq]

/-! ## ResultScreen (src/unnamed/part_001) -/

/-- Embedding of getConfidenceLabel from the ResultScreen, lines 18 to 22:
at least 0.8 is High, at least 0.5 is Medium, anything lower is Low. -/
def getConfidenceLabel (confidence : ℚ) : String :=
  if 8/10 ≤ confidence then "High Confidence"
  else if 5/10 ≤ confidence then "Medium Confidence"
  else "Low Confidence"

/-- Labelling function written from the words of the claim about the
ResultScreen: the cut-offs are the HIGH and MEDIUM fields of a thresholds
object and the LOW field is not consulted. Compared against
getConfidenceLabel to show the cut-offs coincide with CONFIDENCE_THRESHOLDS
and that the behaviour is invariant in the LOW field. -/
def confidenceLabelWith (t : ConfidenceThresholds) (confidence : ℚ) : String :=
  if t.HIGH ≤ confidence then "High Confidence"
  else if t.MEDIUM ≤ confidence then "Medium Confidence"
  else "Low Confidence"

/-! ## Verdict synthesizer (backend, modelled from the spec) -/

/-- Modelled from the spec: provider-assigned polarity tag on aggregated
evidence (section 4.3 step 1); the repository holds no backend code, only the
client, so the synthesizer input type follows the words of the spec. -/
inductive Polarity where
  | supporting
  | contradicting
  | neutral
  deriving DecidableEq, Repr

/-- Modelled from the spec: one unit of aggregated evidence as the synthesizer
receives it, an Evidence record together with its provider-assigned polarity. -/
structure TaggedEvidence where
  source : String
  title : String
  snippet : String
  url : String
  relevance_score : ℚ
  polarity : Polarity
  deriving DecidableEq, Repr

/-- Modelled from the spec: the aggregated input of the synthesizer, the
ordered evidence items and the deduplicated sources the aggregator produced. -/
structure AggregatedEvidence where
  items : List TaggedEvidence
  sources : List Source
  deriving DecidableEq, Repr

/-- Modelled from the spec: the small constant preventing division by zero in
the net-score formula (section 4.3 step 3); chosen as 1/1000. -/
def epsilon : ℚ := 1/1000

/-- Modelled from the spec: minimum evidence count below which the verdict is
UNVERIFIED (section 4.3 step 4); chosen as 2. -/
def minEvidenceCount : Nat := 2

/-- Modelled from the spec: weight each bucket must reach to count as
substantial in the NEEDS_CONTEXT test (section 4.3 step 4); chosen as 1/2. -/
def substantialWeight : ℚ := 1/2

/-- Modelled from the spec: the narrow band within which supporting and
contradicting weights count as roughly balanced (section 4.3 step 4); chosen
as 1/5. -/
def narrowBand : ℚ := 1/5

/-- Modelled from the spec: the evidence count normalizer of the confidence
formula (section 4.3 step 5); chosen as 5. -/
def evidenceCountNormalizer : ℚ := 5

/-- Modelled from the spec: the media confidence level counted as high for the
manipulated-media cap (section 4.3 step 6); chosen as 0.8, which the test
value 0.95 of section 8 exceeds. -/
def highMediaConfidence : ℚ := 8/10

/-- Modelled from the spec: supportWeight, the sum of relevance scores over
the supporting bucket (section 4.3 step 2). -/
def supportWeight (items : List TaggedEvidence) : ℚ :=
  ((items.filter fun e => e.polarity == Polarity.supporting).map
    fun e => e.relevance_score).sum

/-- Modelled from the spec: contradictWeight, the sum of relevance scores over
the contradicting bucket (section 4.3 step 2). -/
def contradictWeight (items : List TaggedEvidence) : ℚ :=
  ((items.filter fun e => e.polarity == Polarity.contradicting).map
    fun e => e.relevance_score).sum

/-- Modelled from the spec: netScore, the normalized difference of the two
weights (section 4.3 step 3). -/
def netScore (items : List TaggedEvidence) : ℚ :=
  (supportWeight items - contradictWeight items) /
    (supportWeight items + contradictWeight items + epsilon)

/-- Modelled from the spec: the fixed-threshold verdict map of section 4.3
step 4, before the media cap. -/
def rawVerdict (items : List TaggedEvidence) : Verdict :=
  if 3/5 ≤ netScore items then Verdict.TRUE
  else if netScore items ≤ -(3/5) then Verdict.FALSE
  else if items.length < minEvidenceCount then Verdict.UNVERIFIED
  else if substantialWeight ≤ supportWeight items ∧
      substantialWeight ≤ contradictWeight items ∧
      |supportWeight items - contradictWeight items| ≤ narrowBand then
    Verdict.NEEDS_CONTEXT
  else Verdict.MISLEADING

/-- Modelled from the spec: qualityFactor derived from the average source
credibility (section 4.3 step 5); 1/2 when no source is present. -/
def qualityFactor (sources : List Source) : ℚ :=
  if sources.isEmpty then 1/2
  else ((sources.map fun s => s.credibility).sum) / sources.length

/-- Modelled from the spec: the confidence formula of section 4.3 step 5,
coupling volume and quality of evidence. -/
def synthConfidence (items : List TaggedEvidence) (sources : List Source) : ℚ :=
  min 1 ((supportWeight items + contradictWeight items) / evidenceCountNormalizer)
    * qualityFactor sources

/-- Modelled from the spec: the manipulated-media cap of section 4.3 step 6;
when media analysis is present, flags manipulation and its confidence is high,
a TRUE verdict is lowered to MISLEADING and every other verdict, already at
MISLEADING or below, is kept. -/
def capForMedia (media : Option MediaAnalysis) (v : Verdict) : Verdict :=
  match media with
  | none => v
  | some m =>
    if m.is_manipulated = true ∧ highMediaConfidence ≤ m.confidence then
      match v with
      | Verdict.TRUE => Verdict.MISLEADING
      | w => w
    else v

/-- Modelled from the spec: evidence of the result ordered by descending
relevance score (sections 4.2 and 4.3), via a stable merge sort. -/
def sortEvidence (items : List TaggedEvidence) : List TaggedEvidence :=
  items.mergeSort fun a b => b.relevance_score ≤ a.relevance_score

/-- Modelled from the spec: the output of the verdict synthesizer, the
verdict, confidence and reasoning of section 4.3 together with the evidence,
sources and media analysis folded into the final result. -/
structure SynthResult where
  verdict : Verdict
  confidence : ℚ
  reasoning : String
  evidence : List TaggedEvidence
  sources : List Source
  media_analysis : Option MediaAnalysis
  deriving DecidableEq, Repr

/-- Modelled from the spec: the verdict synthesizer of section 4.3, a pure
function of the aggregated evidence, the optional media analysis and the
original claim text. -/
def synthesize (agg : AggregatedEvidence) (media : Option MediaAnalysis)
    (claimText : String) : SynthResult :=
  { verdict := capForMedia media (rawVerdict agg.items)
    confidence := synthConfidence agg.items agg.sources
    reasoning := "Assessment of claim: " ++ claimText
    evidence := sortEvidence agg.items
    sources := agg.sources
    media_analysis := media }

/-! ## Concrete sample values used by witnesses -/

/-- Sample complete verification result, as the verify endpoint returns. -/
def sampleResult : VerificationResult :=
  { id := "job-1"
    claim := "The Earth is flat"
    verdict := Verdict.FALSE
    confidence := 85/100
    evidence := [{ source := "web_search", title := "Earth shape",
                   snippet := "The Earth is an oblate spheroid.",
                   url := "https://example.org/earth", relevance_score := 9/10 }]
    reasoning := "Contradicted by scientific consensus."
    sources := [{ url := "https://example.org/earth", title := "Earth shape",
                  credibility := 9/10 }]
    media_analysis := none
    created_at := "2025-01-01T00:00:00Z" }

/-- Sample media analysis reporting manipulation with confidence 0.95. -/
def sampleMedia : MediaAnalysis :=
  { is_manipulated := true, confidence := 95/100, findings := ["splice detected"] }

/-- Sample aggregated evidence strongly supporting a claim: two supporting
items of relevance 0.9 and 0.85, net score above 0.9. -/
def sampleSupportAgg : AggregatedEvidence :=
  { items := [{ source := "web_search", title := "a", snippet := "sa",
                url := "https://example.org/a", relevance_score := 9/10,
                polarity := Polarity.supporting },
              { source := "web_search", title := "b", snippet := "sb",
                url := "https://example.org/b", relevance_score := 85/100,
                polarity := Polarity.supporting }]
    sources := [{ url := "https://example.org/a", title := "a", credibility := 9/10 }] }

/-! ## Helper lemmas -/

/-- Trimming never lengthens a string. -/
theorem jsTrim_length_le (s : String) : (jsTrim s).length ≤ s.length := by
  show (((s.data.dropWhile Char.isWhitespace).reverse.dropWhile
      Char.isWhitespace).reverse).length ≤ s.data.length
  rw [List.length_reverse]
  calc ((s.data.dropWhile Char.isWhitespace).reverse.dropWhile
        Char.isWhitespace).length
      ≤ (s.data.dropWhile Char.isWhitespace).reverse.length :=
        (List.dropWhile_sublist _).length_le
    _ = (s.data.dropWhile Char.isWhitespace).length := List.length_reverse _
    _ ≤ s.data.length := (List.dropWhile_sublist _).length_le

/-- The truncated TextInput value respects the maxLength bound. -/
theorem textInputChange_length_le (typed : String) :
    (textInputChange typed).length ≤ inputScreenMaxLength := by
  show (typed.data.take inputScreenMaxLength).length ≤ inputScreenMaxLength
  rw [List.length_take]
  exact min_le_left _ _

/-! ## Claim theorems -/

/-- Claim C1, counterexample: the claim states that for a server-reported
failure the thrown message is the detail field whenever it is present, with a
fallback only when it is absent; a response whose detail field is present but
empty falsifies this, since the JavaScript or-operator treats the empty string
as falsy and the client throws the fallback instead of the empty detail. -/
theorem verify_error_mapping_counterexample :
    verifyErrorMessage (AxiosFailure.response (some "")) = "Verification failed" ∧
    "Verification failed" ≠ "" := by
  exact ⟨rfl, by decide⟩

/-- Claim C1 (amended): for a failed POST to the verify endpoint, a server
response carrying a non-empty detail is surfaced as that detail, a response
with an absent or empty detail falls back to Verification failed, and a sent
request with no response yields the distinct no-connection message, which
differs from the server-failure fallback. -/
theorem verify_error_mapping :
    (∀ d : String, d ≠ "" →
      verifyErrorMessage (AxiosFailure.response (some d)) = d) ∧
    verifyErrorMessage (AxiosFailure.response none) = "Verification failed" ∧
    verifyErrorMessage (AxiosFailure.response (some "")) = "Verification failed" ∧
    verifyErrorMessage AxiosFailure.request =
      "Network error - please check your connection" ∧
    verifyErrorMessage AxiosFailure.request ≠
      verifyErrorMessage (AxiosFailure.response none) := by
  refine ⟨fun d hd => ?_, rfl, rfl, rfl, by decide⟩
  simp [verifyErrorMessage, jsOrElse, hd]

/-- Claim C1, witness: the amended mapping evaluated at a concrete detail. -/
theorem verify_error_mapping_witness :
    verifyErrorMessage (AxiosFailure.response (some "Claim too long")) =
      "Claim too long" :=
  verify_error_mapping.1 "Claim too long" (by decide)

/-- Claim C2: on a successful verify call with a nonempty trimmed claim, the
submit flow navigates straight to the Result screen carrying the complete
response value, the only HTTP call issued is the single POST to the verify
endpoint, and no status or claim lookup call occurs in the flow. -/
theorem verify_success_navigates (claimText : String) (r : VerificationResult)
    (h : jsTrim claimText ≠ "") :
    handleVerify claimText (VerifyOutcome.success r) =
      SubmitAction.navigateToResult r ∧
    handleVerifyCalls claimText =
      [ApiCall.postVerify
        { claim := jsTrim claimText, language := some "en-US", media_url := none }] ∧
    ∀ claimId : String,
      ApiCall.statusPoll claimId ∉ handleVerifyCalls claimText ∧
      ApiCall.claimFetch claimId ∉ handleVerifyCalls claimText := by
  have hreq : handleVerifyRequest claimText =
      some { claim := jsTrim claimText, language := some "en-US", media_url := none } := by
    simp [handleVerifyRequest, h]
  refine ⟨?_, ?_, ?_⟩
  · simp [handleVerify, hreq]
  · simp [handleVerifyCalls, hreq]
  · intro claimId
    simp [handleVerifyCalls, hreq]

/-- Claim C2, witness: the submit flow at a concrete claim and response. -/
theorem verify_success_navigates_witness :
    handleVerify "The Earth is flat" (VerifyOutcome.success sampleResult) =
      SubmitAction.navigateToResult sampleResult :=
  (verify_success_navigates "The Earth is flat" sampleResult (by decide)).1

/-- Claim C3, counterexample: the claim states the claim lookup calls follow
the same error convention as verify, mapping network-level failures to a
distinct no-connection condition; in the code a network-level failure on
either lookup yields the generic fallback message, identical to the message
for a detail-less server failure and different from the no-connection
message the verify handler uses. -/
theorem claim_lookup_network_counterexample :
    getClaimStatusErrorMessage AxiosFailure.request = "Failed to get claim status" ∧
    getClaimErrorMessage AxiosFailure.request = "Failed to get claim" ∧
    getClaimStatusErrorMessage AxiosFailure.request ≠
      "Network error - please check your connection" ∧
    getClaimStatusErrorMessage AxiosFailure.request =
      getClaimStatusErrorMessage (AxiosFailure.response none) := by
  exact ⟨rfl, rfl, by decide, rfl⟩

/-- Claim C3 (amended): for failed claim status and claim fetch calls, a
server-reported failure with a non-empty detail is surfaced verbatim as the
detail message, while every failure without a detail, network-level failures
included, is mapped to the generic fallback messages Failed to get claim
status and Failed to get claim, with no distinct no-connection condition. -/
theorem claim_lookup_error_mapping :
    (∀ d : String, d ≠ "" →
      getClaimStatusErrorMessage (AxiosFailure.response (some d)) = d ∧
      getClaimErrorMessage (AxiosFailure.response (some d)) = d) ∧
    (∀ e : AxiosFailure, optionalDetail e = none →
      getClaimStatusErrorMessage e = "Failed to get claim status" ∧
      getClaimErrorMessage e = "Failed to get claim") := by
  constructor
  · intro d hd
    constructor <;>
      simp [getClaimStatusErrorMessage, getClaimErrorMessage, optionalDetail,
        jsOrElse, hd]
  · intro e he
    constructor <;>
      simp [getClaimStatusErrorMessage, getClaimErrorMessage, jsOrElse, he]

/-- Claim C3, witness: the amended mapping at a concrete NotFound detail and
at a concrete network failure. -/
theorem claim_lookup_error_mapping_witness :
    getClaimStatusErrorMessage (AxiosFailure.response (some "NotFound")) =
      "NotFound" ∧
    getClaimErrorMessage AxiosFailure.request = "Failed to get claim" :=
  ⟨(claim_lookup_error_mapping.1 "NotFound" (by decide)).1,
   (claim_lookup_error_mapping.2 AxiosFailure.request rfl).2⟩

/-- Claim C4: the config of the POST to the verify endpoint carries a timeout
of 30000 milliseconds, the value of the API_TIMEOUT constant. -/
theorem verify_timeout_bound :
    verifyAxiosConfig.timeout = some API_TIMEOUT ∧ API_TIMEOUT = 30000 :=
  ⟨rfl, rfl⟩

/-- Claim C5: every claim value the input screen can hold is at most 2000
characters long, every claim actually submitted in a request is at most 2000
characters long, and the TextInput bound equals the MAX_CLAIM_LENGTH
constant. -/
theorem claim_length_bounded :
    (∀ typed : String, (textInputChange typed).length ≤ MAX_CLAIM_LENGTH) ∧
    (∀ typed : String, ∀ rq : VerifyRequest,
      handleVerifyRequest (textInputChange typed) = some rq →
      rq.claim.length ≤ MAX_CLAIM_LENGTH) ∧
    inputScreenMaxLength = MAX_CLAIM_LENGTH := by
  refine ⟨fun typed => textInputChange_length_le typed, ?_, rfl⟩
  intro typed rq h
  rw [handleVerifyRequest] at h
  split at h
  · exact Option.noConfusion h
  · cases h
    exact le_trans (jsTrim_length_le _) (textInputChange_length_le typed)

/-- Claim C5, witness: the bound at a concrete typed value. -/
theorem claim_length_bounded_witness :
    (textInputChange "The Earth is flat").length ≤ MAX_CLAIM_LENGTH :=
  claim_length_bounded.1 "The Earth is flat"

/-- Claim C6: the verdict synthesizer is deterministic, two runs on equal
aggregated evidence, equal optional media analysis and equal claim text
return equal results, in particular equal verdict and confidence. -/
theorem synthesize_deterministic (a₁ a₂ : AggregatedEvidence)
    (m₁ m₂ : Option MediaAnalysis) (c₁ c₂ : String)
    (ha : a₁ = a₂) (hm : m₁ = m₂) (hc : c₁ = c₂) :
    synthesize a₁ m₁ c₁ = synthesize a₂ m₂ c₂ := by
  subst ha; subst hm; subst hc; rfl

/-- Claim C6, witness: determinism at concrete inputs. -/
theorem synthesize_deterministic_witness :
    synthesize sampleSupportAgg (some sampleMedia) "The photo is real" =
      synthesize sampleSupportAgg (some sampleMedia) "The photo is real" :=
  synthesize_deterministic sampleSupportAgg sampleSupportAgg
    (some sampleMedia) (some sampleMedia) "The photo is real" "The photo is real"
    rfl rfl rfl

/-- Claim C7: whenever media analysis is present with the manipulation flag
set and confidence at least the high cut-off, the synthesized verdict is
never TRUE, however strong the textual evidence. -/
theorem manipulated_media_cap (agg : AggregatedEvidence) (m : MediaAnalysis)
    (claimText : String) (h1 : m.is_manipulated = true)
    (h2 : highMediaConfidence ≤ m.confidence) :
    (synthesize agg (some m) claimText).verdict ≠ Verdict.TRUE := by
  show capForMedia (some m) (rawVerdict agg.items) ≠ Verdict.TRUE
  simp only [capForMedia]
  rw [if_pos ⟨h1, h2⟩]
  cases rawVerdict agg.items <;> simp

/-- Claim C7, witness: two supporting items of relevance 0.9 and 0.85 give a
net score above 0.9, yet with manipulated media of confidence 0.95 the
verdict is not TRUE. -/
theorem manipulated_media_cap_witness :
    (9 : ℚ)/10 ≤ netScore sampleSupportAgg.items ∧
    (synthesize sampleSupportAgg (some sampleMedia)
      "The photo shows the event").verdict ≠ Verdict.TRUE :=
  ⟨by
    simp only [netScore, supportWeight, contradictWeight, epsilon, sampleSupportAgg,
      List.filter, List.map, List.sum]
    norm_num,
   manipulated_media_cap sampleSupportAgg sampleMedia
     "The photo shows the event" rfl
     (by norm_num [highMediaConfidence, sampleMedia])⟩

/-- Claim C8: the input screen submits no request when the trimmed claim is
empty, submits exactly the trimmed claim with language en-US and no media url
when it is not, and every request it ever submits has that shape. -/
theorem submit_guard_and_request :
    (∀ claimText : String, jsTrim claimText = "" →
      handleVerifyRequest claimText = none) ∧
    (∀ claimText : String, jsTrim claimText ≠ "" →
      handleVerifyRequest claimText =
        some { claim := jsTrim claimText, language := some "en-US",
               media_url := none }) ∧
    (∀ claimText : String, ∀ rq : VerifyRequest,
      handleVerifyRequest claimText = some rq →
      jsTrim claimText ≠ "" ∧ rq.claim = jsTrim claimText ∧
      rq.language = some "en-US" ∧ rq.media_url = none) := by
  refine ⟨fun claimText h => by simp [handleVerifyRequest, h],
          fun claimText h => by simp [handleVerifyRequest, h],
          fun claimText rq h => ?_⟩
  rw [handleVerifyRequest] at h
  split at h
  · exact Option.noConfusion h
  · cases h
    exact ⟨by assumption, rfl, rfl, rfl⟩

/-- Claim C8, witness: the guard at a whitespace-only claim and the request
shape at a padded claim. -/
theorem submit_guard_and_request_witness :
    handleVerifyRequest "   " = none ∧
    handleVerifyRequest " hello " =
      some { claim := "hello", language := some "en-US", media_url := none } := by
  refine ⟨submit_guard_and_request.1 "   " (by decide), ?_⟩
  rw [submit_guard_and_request.2.1 " hello " (by decide)]
  decide

/-- Claim C9: the health check collapses every failure, server-reported or
network-level, into the single message Backend is not responding and never
surfaces a detail text of its own content. -/
theorem health_check_single_condition :
    (∀ e : AxiosFailure, healthCheckErrorMessage e = "Backend is not responding") ∧
    (∀ d : String, d ≠ "Backend is not responding" →
      healthCheckErrorMessage (AxiosFailure.response (some d)) ≠ d) := by
  refine ⟨fun e => rfl, fun d hd h => hd h.symm⟩

/-- Claim C9, witness: the single message at a network failure and at a
server failure carrying a detail. -/
theorem health_check_single_condition_witness :
    healthCheckErrorMessage AxiosFailure.request = "Backend is not responding" ∧
    healthCheckErrorMessage (AxiosFailure.response (some "database down")) ≠
      "database down" :=
  ⟨health_check_single_condition.1 AxiosFailure.request,
   health_check_single_condition.2 "database down" (by decide)⟩

/-- Claim C10: the confidence label is High exactly when confidence is at
least the HIGH threshold, Medium exactly when it lies between the MEDIUM and
HIGH thresholds, Low exactly below the MEDIUM threshold; the behaviour agrees
with a thresholds-driven labelling for every value of the LOW field, whose
constant value 0.3 is never consulted. -/
theorem confidence_label_thresholds (c : ℚ) :
    (getConfidenceLabel c = "High Confidence" ↔ CONFIDENCE_THRESHOLDS.HIGH ≤ c) ∧
    (getConfidenceLabel c = "Medium Confidence" ↔
      CONFIDENCE_THRESHOLDS.MEDIUM ≤ c ∧ c < CONFIDENCE_THRESHOLDS.HIGH) ∧
    (getConfidenceLabel c = "Low Confidence" ↔ c < CONFIDENCE_THRESHOLDS.MEDIUM) ∧
    (∀ lowCutoff : ℚ, getConfidenceLabel c =
      confidenceLabelWith
        { HIGH := CONFIDENCE_THRESHOLDS.HIGH, MEDIUM := CONFIDENCE_THRESHOLDS.MEDIUM,
          LOW := lowCutoff } c) ∧
    CONFIDENCE_THRESHOLDS.LOW = 3/10 := by
  refine ⟨?_, ?_, ?_, fun lowCutoff => rfl, rfl⟩
  · by_cases h1 : (8 : ℚ)/10 ≤ c
    · simp [getConfidenceLabel, CONFIDENCE_THRESHOLDS, h1]
    · by_cases h2 : (5 : ℚ)/10 ≤ c <;>
        simp [getConfidenceLabel, CONFIDENCE_THRESHOLDS, h1, h2]
  · by_cases h1 : (8 : ℚ)/10 ≤ c
    · simp only [getConfidenceLabel, CONFIDENCE_THRESHOLDS]
      rw [if_pos h1]
      constructor
      · intro h; exact absurd h (by decide)
      · rintro ⟨-, hlt⟩; linarith
    · by_cases h2 : (5 : ℚ)/10 ≤ c
      · simp only [getConfidenceLabel, CONFIDENCE_THRESHOLDS]
        rw [if_neg h1, if_pos h2]
        simp only [true_iff]
        exact ⟨h2, by exact lt_of_not_le h1⟩
      · simp only [getConfidenceLabel, CONFIDENCE_THRESHOLDS]
        rw [if_neg h1, if_neg h2]
        constructor
        · intro h; exact absurd h (by decide)
        · rintro ⟨hle, -⟩; exact absurd hle h2
  · by_cases h1 : (8 : ℚ)/10 ≤ c
    · simp only [getConfidenceLabel, CONFIDENCE_THRESHOLDS]
      rw [if_pos h1]
      constructor
      · intro h; exact absurd h (by decide)
      · intro hlt; linarith
    · by_cases h2 : (5 : ℚ)/10 ≤ c
      · simp only [getConfidenceLabel, CONFIDENCE_THRESHOLDS]
        rw [if_neg h1, if_pos h2]
        constructor
        · intro h; exact absurd h (by decide)
        · intro hlt; linarith
      · simp only [getConfidenceLabel, CONFIDENCE_THRESHOLDS]
        rw [if_neg h1, if_neg h2]
        simp only [true_iff]
        exact lt_of_not_le h2

/-- Claim C10, witness: labels at three concrete confidence values via the
threshold characterization. -/
theorem confidence_label_thresholds_witness :
    getConfidenceLabel (9/10) = "High Confidence" :=
  (confidence_label_thresholds (9/10)).1.mpr (by norm_num [CONFIDENCE_THRESHOLDS])

end VerifAI
